import Mathlib

/-!
Shallow embedding of the process-supervision core of
src/frontend/src-tauri/src/lib.rs.

The program supervises a single sidecar process. Shared state is a
mutex-guarded slot holding an optional child handle. The embedding models:
  - the slot (BackendState, source lines 5-7),
  - the command event stream variants (CommandEvent, the variants of
    tauri_plugin_shell CommandEvent matched by the source),
  - the two drain loops (drainStart, source lines 29-47; drainSetup,
    source lines 96-106),
  - start_backend (lines 10-50), stop_backend (lines 52-62),
    get_backend_url (lines 64-67), the window-close hook (lines 116-127)
    and the startup auto-start hook (lines 79-112).

External effects (sidecar resolution, OS spawn, OS kill) are modelled by
outcome environments (SpawnOutcome, KillOutcome) passed as arguments.
Each operation also returns a trace of primitive actions; the trace makes
the lock discipline (which actions happen between acquiring and releasing
the mutex guard) and effect ordering (handle taken before kill is issued)
explicit. Mutex acquisition can fail only when the mutex is poisoned by a
panic while the guard is held; no code path of this program panics while
holding the guard, so the model treats acquisition as always succeeding.
-/

namespace Supervision

/-- Opaque handle to one spawned OS process
(tauri_plugin_shell CommandChild, source line 6). -/
structure CommandChild where
  pid : Nat
deriving DecidableEq, Repr

/-- The mutex-guarded supervisor state: an optional slot holding the live
child handle (source lines 5-7). -/
structure BackendState where
  child : Option CommandChild
deriving DecidableEq, Repr

/-- Payload of a Terminated event: the optional exit code. -/
structure TerminatedPayload where
  code : Option Int
deriving DecidableEq, Repr

/-- The worker event variants the source matches on: stdout bytes, stderr
bytes, a spawn-layer error message, and termination with optional exit
code. Bytes are modelled as natural numbers (values below 256 in any real
stream; the decoder is total on all of Nat). -/
inductive CommandEvent where
  | Stdout (line : List Nat)
  | Stderr (line : List Nat)
  | Error (msg : String)
  | Terminated (payload : TerminatedPayload)
deriving DecidableEq, Repr

/-- The Unicode replacement character U+FFFD. -/
def replacementChar : Char := Char.ofNat 0xFFFD

/-- Is the byte a UTF-8 continuation byte (0x80 to 0xBF)? -/
def isUtf8Cont (b : Nat) : Bool := 0x80 ≤ b && b ≤ 0xBF

/-- Admissible first continuation byte after a three-byte lead b
(0xE0 needs 0xA0-0xBF, 0xED needs 0x80-0x9F, others 0x80-0xBF),
per the UTF-8 well-formedness table used by Rust std. -/
def utf8Cont3First (b b1 : Nat) : Bool :=
  if b = 0xE0 then 0xA0 ≤ b1 && b1 ≤ 0xBF
  else if b = 0xED then 0x80 ≤ b1 && b1 ≤ 0x9F
  else isUtf8Cont b1

/-- Admissible first continuation byte after a four-byte lead b
(0xF0 needs 0x90-0xBF, 0xF4 needs 0x80-0x8F, others 0x80-0xBF). -/
def utf8Cont4First (b b1 : Nat) : Bool :=
  if b = 0xF0 then 0x90 ≤ b1 && b1 ≤ 0xBF
  else if b = 0xF4 then 0x80 ≤ b1 && b1 ≤ 0x8F
  else isUtf8Cont b1

/-!
Lossy UTF-8 decoding of a byte list to characters, modelling Rust std
String.from_utf8_lossy as called on source lines 32, 35, 99 and 102:
well-formed sequences decode to their scalar value, every maximal invalid
subpart is replaced by one U+FFFD, and decoding is total on arbitrary
byte input. Helpers first; the main function is utf8LossyChars below,
written with explicit patterns for streams of length 0 to 3 so that the
lookahead bytes of a multi-byte sequence are pattern variables (a
truncated well-formed prefix at end of stream is one replacement).
-/

/-- Scalar value of a well-formed two-byte sequence. -/
def decode2 (b b1 : Nat) : Char := Char.ofNat ((b - 0xC0) * 64 + (b1 - 0x80))

/-- Scalar value of a well-formed three-byte sequence. -/
def decode3 (b b1 b2 : Nat) : Char :=
  Char.ofNat ((b - 0xE0) * 4096 + (b1 - 0x80) * 64 + (b2 - 0x80))

/-- Scalar value of a well-formed four-byte sequence. -/
def decode4 (b b1 b2 b3 : Nat) : Char :=
  Char.ofNat ((b - 0xF0) * 262144 + (b1 - 0x80) * 4096 + (b2 - 0x80) * 64 + (b3 - 0x80))

/-- Byte b opens a two-byte sequence. -/
def isLead2 (b : Nat) : Bool := 0xC2 ≤ b && b ≤ 0xDF

/-- Byte b opens a three-byte sequence. -/
def isLead3 (b : Nat) : Bool := 0xE0 ≤ b && b ≤ 0xEF

/-- Byte b opens a four-byte sequence. -/
def isLead4 (b : Nat) : Bool := 0xF0 ≤ b && b ≤ 0xF4

def utf8LossyChars : List Nat → List Char
  | [] => []
  | [b] =>
    if b < 0x80 then [Char.ofNat b] else [replacementChar]
  | [b, b1] =>
    if b < 0x80 then Char.ofNat b :: utf8LossyChars [b1]
    else if isLead2 b then
      if isUtf8Cont b1 then [decode2 b b1]
      else replacementChar :: utf8LossyChars [b1]
    else if isLead3 b then
      if utf8Cont3First b b1 then [replacementChar]
      else replacementChar :: utf8LossyChars [b1]
    else if isLead4 b then
      if utf8Cont4First b b1 then [replacementChar]
      else replacementChar :: utf8LossyChars [b1]
    else replacementChar :: utf8LossyChars [b1]
  | [b, b1, b2] =>
    if b < 0x80 then Char.ofNat b :: utf8LossyChars [b1, b2]
    else if isLead2 b then
      if isUtf8Cont b1 then decode2 b b1 :: utf8LossyChars [b2]
      else replacementChar :: utf8LossyChars [b1, b2]
    else if isLead3 b then
      if utf8Cont3First b b1 then
        if isUtf8Cont b2 then [decode3 b b1 b2]
        else replacementChar :: utf8LossyChars [b2]
      else replacementChar :: utf8LossyChars [b1, b2]
    else if isLead4 b then
      if utf8Cont4First b b1 then
        if isUtf8Cont b2 then [replacementChar]
        else replacementChar :: utf8LossyChars [b2]
      else replacementChar :: utf8LossyChars [b1, b2]
    else replacementChar :: utf8LossyChars [b1, b2]
  | b :: b1 :: b2 :: b3 :: rest3 =>
    if b < 0x80 then Char.ofNat b :: utf8LossyChars (b1 :: b2 :: b3 :: rest3)
    else if isLead2 b then
      if isUtf8Cont b1 then decode2 b b1 :: utf8LossyChars (b2 :: b3 :: rest3)
      else replacementChar :: utf8LossyChars (b1 :: b2 :: b3 :: rest3)
    else if isLead3 b then
      if utf8Cont3First b b1 then
        if isUtf8Cont b2 then decode3 b b1 b2 :: utf8LossyChars (b3 :: rest3)
        else replacementChar :: utf8LossyChars (b2 :: b3 :: rest3)
      else replacementChar :: utf8LossyChars (b1 :: b2 :: b3 :: rest3)
    else if isLead4 b then
      if utf8Cont4First b b1 then
        if isUtf8Cont b2 then
          if isUtf8Cont b3 then decode4 b b1 b2 b3 :: utf8LossyChars rest3
          else replacementChar :: utf8LossyChars (b3 :: rest3)
        else replacementChar :: utf8LossyChars (b2 :: b3 :: rest3)
      else replacementChar :: utf8LossyChars (b1 :: b2 :: b3 :: rest3)
    else replacementChar :: utf8LossyChars (b1 :: b2 :: b3 :: rest3)

/-- Lossy UTF-8 decoding to a string (Rust std String.from_utf8_lossy). -/
def fromUtf8Lossy (bs : List Nat) : String := ⟨utf8LossyChars bs⟩

/-- A log line: info is println to stdout, error is eprintln to stderr. -/
inductive Log where
  | info (msg : String)
  | error (msg : String)
deriving DecidableEq, Repr

/-- Rust Debug rendering of the optional exit code, as printed by
the format argument on source line 41. -/
def formatExitCode : Option Int → String
  | none => "None"
  | some n => "Some(" ++ toString n ++ ")"

/-- The drain loop attached by start_backend (source lines 29-47): routes
stdout to info, stderr and spawn-layer errors to error, and on the first
Terminated event logs the exit code and breaks out of the loop. -/
def drainStart : List CommandEvent → List Log
  | [] => []
  | CommandEvent.Stdout line :: rest =>
      Log.info ("[Backend] " ++ fromUtf8Lossy line) :: drainStart rest
  | CommandEvent.Stderr line :: rest =>
      Log.error ("[Backend Error] " ++ fromUtf8Lossy line) :: drainStart rest
  | CommandEvent.Error msg :: rest =>
      Log.error ("[Backend] Error: " ++ msg) :: drainStart rest
  | CommandEvent.Terminated p :: _ =>
      [Log.info ("[Backend] Terminated with code: " ++ formatExitCode p.code)]

/-- The drain loop attached by the startup auto-start hook (source lines
96-106): routes stdout to info and stderr to error; every other variant,
Error and Terminated included, falls into the catch-all arm and is
ignored, and the loop has no break, so it runs until the stream ends. -/
def drainSetup : List CommandEvent → List Log
  | [] => []
  | CommandEvent.Stdout line :: rest =>
      Log.info ("[Backend] " ++ fromUtf8Lossy line) :: drainSetup rest
  | CommandEvent.Stderr line :: rest =>
      Log.error ("[Backend Error] " ++ fromUtf8Lossy line) :: drainSetup rest
  | _ :: rest => drainSetup rest

/-- Modelled from the spec: the EventDrain contract of spec section 4.3 -
receive events until the stream is exhausted or a Terminated event
arrives, then exit unconditionally; route stdout lines to the
informational channel, stderr lines and SpawnError to the error channel,
and Terminated to the informational channel carrying the exit code. -/
def drainSpecified : List CommandEvent → List Log
  | [] => []
  | CommandEvent.Stdout line :: rest =>
      Log.info ("[Backend] " ++ fromUtf8Lossy line) :: drainSpecified rest
  | CommandEvent.Stderr line :: rest =>
      Log.error ("[Backend Error] " ++ fromUtf8Lossy line) :: drainSpecified rest
  | CommandEvent.Error msg :: rest =>
      Log.error ("[Backend] Error: " ++ msg) :: drainSpecified rest
  | CommandEvent.Terminated p :: _ =>
      [Log.info ("[Backend] Terminated with code: " ++ formatExitCode p.code)]

/-- Per-event routing of the startup-hook drain: only stdout and stderr
produce a log line; Error and Terminated produce nothing. -/
def setupRoute : CommandEvent → Option Log
  | CommandEvent.Stdout line => some (Log.info ("[Backend] " ++ fromUtf8Lossy line))
  | CommandEvent.Stderr line => some (Log.error ("[Backend Error] " ++ fromUtf8Lossy line))
  | _ => none

/-- Primitive actions recorded in an operation trace. lock and unlock
bracket the mutex guard's lifetime; readSlot is the is_some check on the
slot; resolveSidecar and spawn are the external calls with their success
flag; storeChild writes the slot; attachDrain spawns the detached logging
task; takeChild removes the handle from the slot; kill issues the kill
request; awaitRecv is a suspension point (an await on the event
receiver). -/
inductive Action where
  | lock
  | unlock
  | readSlot (occupied : Bool)
  | resolveSidecar (ok : Bool)
  | spawn (ok : Bool)
  | storeChild (c : CommandChild)
  | attachDrain
  | takeChild (c : CommandChild)
  | kill (c : CommandChild)
  | awaitRecv
deriving DecidableEq, Repr

/-- Outcome environment for one start attempt: sidecar resolution fails
with a message, the OS spawn fails with a message, or the spawn succeeds
yielding a child handle and the event stream its receiver will deliver. -/
inductive SpawnOutcome where
  | sidecarErr (e : String)
  | spawnErr (e : String)
  | ok (c : CommandChild) (evs : List CommandEvent)
deriving DecidableEq, Repr

/-- Outcome environment for one kill request. -/
inductive KillOutcome where
  | ok
  | err (e : String)
deriving DecidableEq, Repr

instance {ε α : Type} [DecidableEq ε] [DecidableEq α] : DecidableEq (Except ε α) :=
  fun x y =>
    match x, y with
    | Except.ok a, Except.ok b => decidable_of_iff (a = b) (by simp)
    | Except.error a, Except.error b => decidable_of_iff (a = b) (by simp)
    | Except.ok _, Except.error _ => isFalse (by simp)
    | Except.error _, Except.ok _ => isFalse (by simp)

/-- Result of one start_backend call: the returned Result, the state
after the call, the event stream handed to a freshly attached drain task
(none when no drain was attached), and the action trace. -/
structure StartOutput where
  ret : Except String String
  state : BackendState
  drained : Option (List CommandEvent)
  trace : List Action
deriving DecidableEq, Repr

/-- start_backend (source lines 10-50). Locks the state; if the slot is
occupied, returns Ok "Backend already running" without touching the
environment. Otherwise resolves the sidecar (failure maps into an Err
string, slot untouched), spawns it (failure likewise), stores the child
in the slot, attaches the drain task, and returns Ok "Backend started".
The guard is dropped at the end of the call in every branch. -/
def start_backend (env : SpawnOutcome) (s : BackendState) : StartOutput :=
  match s.child with
  | some _ =>
      { ret := Except.ok "Backend already running", state := s, drained := none,
        trace := [Action.lock, Action.readSlot true, Action.unlock] }
  | none =>
      match env with
      | SpawnOutcome.sidecarErr e =>
          { ret := Except.error ("Failed to create sidecar command: " ++ e),
            state := s, drained := none,
            trace := [Action.lock, Action.readSlot false,
              Action.resolveSidecar false, Action.unlock] }
      | SpawnOutcome.spawnErr e =>
          { ret := Except.error ("Failed to spawn backend: " ++ e),
            state := s, drained := none,
            trace := [Action.lock, Action.readSlot false,
              Action.resolveSidecar true, Action.spawn false, Action.unlock] }
      | SpawnOutcome.ok c evs =>
          { ret := Except.ok "Backend started",
            state := { child := some c }, drained := some evs,
            trace := [Action.lock, Action.readSlot false,
              Action.resolveSidecar true, Action.spawn true,
              Action.storeChild c, Action.attachDrain, Action.unlock] }

/-- Result of one stop_backend call. -/
structure StopOutput where
  ret : Except String String
  state : BackendState
  trace : List Action
deriving DecidableEq, Repr

/-- stop_backend (source lines 52-62). Locks the state; if the slot holds
a child, takes it out of the slot and only then issues the kill request:
Ok "Backend stopped" on kill success, an Err string on kill failure, and
in both cases the slot is already empty. If the slot is empty, returns
Ok "Backend was not running". -/
def stop_backend (kenv : KillOutcome) (s : BackendState) : StopOutput :=
  match s.child with
  | some c =>
      match kenv with
      | KillOutcome.ok =>
          { ret := Except.ok "Backend stopped", state := { child := none },
            trace := [Action.lock, Action.takeChild c, Action.kill c, Action.unlock] }
      | KillOutcome.err e =>
          { ret := Except.error ("Failed to kill backend: " ++ e),
            state := { child := none },
            trace := [Action.lock, Action.takeChild c, Action.kill c, Action.unlock] }
  | none =>
      { ret := Except.ok "Backend was not running", state := s,
        trace := [Action.lock, Action.unlock] }

/-- get_backend_url (source lines 64-67): a constant. -/
def get_backend_url : String := "http://localhost:8000"

/-- A call to the get_backend_url command, seen against the managed
state: the handler takes no state argument at all (source line 65), so
the call returns the constant, leaves the state untouched, and performs
no action on the guard (empty trace). -/
def call_get_backend_url (s : BackendState) : String × BackendState × List Action :=
  (get_backend_url, s, [])

/-- Result of the window-close hook. -/
structure CloseOutput where
  state : BackendState
  logs : List Log
  preventClose : Bool
  trace : List Action
deriving DecidableEq, Repr

/-- The window-close hook (source lines 116-127). On CloseRequested it
locks the state; if the slot holds a child it takes it and issues a kill
whose result is discarded (the binding on line 122 ignores it), then logs;
if the slot is empty nothing happens. The hook never calls prevent_close,
so the close proceeds in every case (preventClose is false). -/
def closeRequestedHook (_kenv : KillOutcome) (s : BackendState) : CloseOutput :=
  match s.child with
  | some c =>
      { state := { child := none },
        logs := [Log.info "Backend stopped on window close"],
        preventClose := false,
        trace := [Action.lock, Action.takeChild c, Action.kill c, Action.unlock] }
  | none =>
      { state := s, logs := [], preventClose := false,
        trace := [Action.lock, Action.unlock] }

/-- Result of the startup auto-start hook. -/
structure SetupOutput where
  state : BackendState
  logs : List Log
  drained : Option (List CommandEvent)
deriving DecidableEq, Repr

/-- The startup auto-start hook body (source lines 86-111): after the
fixed delay, if the slot is empty and sidecar resolution and spawn both
succeed, stores the child, logs, and attaches the drainSetup loop; all
failures are silently ignored. -/
def setupHook (env : SpawnOutcome) (s : BackendState) : SetupOutput :=
  match s.child with
  | some _ => { state := s, logs := [], drained := none }
  | none =>
      match env with
      | SpawnOutcome.sidecarErr _ => { state := s, logs := [], drained := none }
      | SpawnOutcome.spawnErr _ => { state := s, logs := [], drained := none }
      | SpawnOutcome.ok c evs =>
          { state := { child := some c },
            logs := [Log.info "Backend auto-started"], drained := some evs }

/-- The detached drain task of start_backend, seen against the supervisor
state: the spawned closure (source lines 28-47) captures only the event
receiver, not the state handle, so it returns the state it observes
unchanged and produces the drainStart logs. -/
def drainTask (s : BackendState) (evs : List CommandEvent) : BackendState × List Log :=
  (s, drainStart evs)

/-- Suspension trace of the start_backend drain task: one awaitRecv per
loop iteration (the final one observes the stream close, or the break at
a Terminated event ends the loop). The task never touches the mutex, so
no lock action can occur. -/
def drainTaskTrace : List CommandEvent → List Action
  | [] => [Action.awaitRecv]
  | CommandEvent.Terminated _ :: _ => [Action.awaitRecv]
  | _ :: rest => Action.awaitRecv :: drainTaskTrace rest

/-- Fold a list of spawn outcomes through successive start_backend calls
with no intervening stop, collecting each call's output. -/
def runStarts : List SpawnOutcome → BackendState → List StartOutput
  | [], _ => []
  | env :: rest, s =>
      let o := start_backend env s
      o :: runStarts rest o.state

/-- The actions performed while the guard is held: what stands strictly
between the first lock action and the following unlock action. -/
def upToUnlock : List Action → List Action
  | [] => []
  | Action.unlock :: _ => []
  | a :: rest => a :: upToUnlock rest

/-- Actions between the first lock and the next unlock of a trace. -/
def guardedActions : List Action → List Action
  | [] => []
  | Action.lock :: rest => upToUnlock rest
  | _ :: rest => guardedActions rest

/-- Action a occurs strictly before action b in the trace. -/
def precedesIn (a b : Action) (tr : List Action) : Prop :=
  ∃ i j : Nat, i < j ∧ tr.get? i = some a ∧ tr.get? j = some b

/-- Every start call against an occupied slot produces the same output:
a non-error already-running message, the unchanged state, no drain, and
a trace that only locks, reads the slot and unlocks. -/
theorem runStarts_occupied (envs : List SpawnOutcome) (c : CommandChild) :
    runStarts envs { child := some c } = envs.map (fun _ =>
      { ret := Except.ok "Backend already running", state := { child := some c },
        drained := none,
        trace := [Action.lock, Action.readSlot true, Action.unlock] }) := by
  induction envs with
  | nil => rfl
  | cons env rest ih => simp [runStarts, start_backend, ih]

/-- C1: for every sequence of start calls with no intervening stop, only
the first call performs the spawn side effect and stores the handle in
the slot; every later call finds the slot occupied, returns the
non-error already-running status, performs no spawn action, attaches no
drain, and leaves the slot unchanged. -/
theorem start_already_running_idempotent (c : CommandChild)
    (evs : List CommandEvent) (envs : List SpawnOutcome) :
    runStarts (SpawnOutcome.ok c evs :: envs) { child := none } =
      { ret := Except.ok "Backend started", state := { child := some c },
        drained := some evs,
        trace := [Action.lock, Action.readSlot false, Action.resolveSidecar true,
          Action.spawn true, Action.storeChild c, Action.attachDrain,
          Action.unlock] } ::
      envs.map (fun _ =>
        { ret := Except.ok "Backend already running", state := { child := some c },
          drained := none,
          trace := [Action.lock, Action.readSlot true, Action.unlock] }) ∧
    (∀ env2 : SpawnOutcome,
      (start_backend env2 { child := some c }).ret = Except.ok "Backend already running" ∧
      (start_backend env2 { child := some c }).state = { child := some c } ∧
      (start_backend env2 { child := some c }).drained = none ∧
      ∀ b : Bool, Action.spawn b ∉ (start_backend env2 { child := some c }).trace) := by
  refine ⟨?_, ?_⟩
  · simp [runStarts, start_backend, runStarts_occupied]
  · intro env2
    refine ⟨rfl, rfl, rfl, ?_⟩
    intro b
    simp [start_backend]

/-- C2: stopping an occupied supervisor takes the handle out of the slot
strictly before the kill request is issued; kill success yields the
stopped message, kill failure yields the error string, and in both cases
the slot is empty after the call. -/
theorem stop_clears_slot_before_kill (c : CommandChild) (e : String) :
    stop_backend KillOutcome.ok { child := some c } =
      { ret := Except.ok "Backend stopped", state := { child := none },
        trace := [Action.lock, Action.takeChild c, Action.kill c, Action.unlock] } ∧
    stop_backend (KillOutcome.err e) { child := some c } =
      { ret := Except.error ("Failed to kill backend: " ++ e),
        state := { child := none },
        trace := [Action.lock, Action.takeChild c, Action.kill c, Action.unlock] } ∧
    precedesIn (Action.takeChild c) (Action.kill c)
      (stop_backend KillOutcome.ok { child := some c }).trace ∧
    precedesIn (Action.takeChild c) (Action.kill c)
      (stop_backend (KillOutcome.err e) { child := some c }).trace :=
  ⟨rfl, rfl, ⟨1, 2, by omega, rfl, rfl⟩, ⟨1, 2, by omega, rfl, rfl⟩⟩

/-- C3 counterexample: the startup-hook drain loop violates the
specified EventDrain contract - on a stream holding a Terminated event
followed by a stdout line, it ignores the Terminated event, keeps
running, and logs the later stdout line, while the contract requires an
informational log carrying the exit code and an exit at the Terminated
event with no later event processed. -/
theorem setup_drain_ignores_terminated :
    drainSetup [CommandEvent.Terminated { code := none },
        CommandEvent.Stdout [104, 105]] = [Log.info "[Backend] hi"] ∧
    drainSpecified [CommandEvent.Terminated { code := none },
        CommandEvent.Stdout [104, 105]] =
      [Log.info "[Backend] Terminated with code: None"] ∧
    drainSetup [CommandEvent.Terminated { code := none },
        CommandEvent.Stdout [104, 105]] ≠
      drainSpecified [CommandEvent.Terminated { code := none },
        CommandEvent.Stdout [104, 105]] := by
  decide

/-- C3 (amended): the drain loop attached by start_backend follows the
specified EventDrain contract exactly - it routes stdout lines to the
informational channel, stderr lines and spawn errors to the error
channel, and at the first Terminated event logs the exit code and exits
without processing any later event; the startup-hook drain loop instead
routes only stdout and stderr lines, ignores Error and Terminated
events, and exits only when the stream is exhausted. -/
theorem drain_loops_routing (evs : List CommandEvent) (p : TerminatedPayload) :
    drainStart evs = drainSpecified evs ∧
    drainStart (CommandEvent.Terminated p :: evs) =
      [Log.info ("[Backend] Terminated with code: " ++ formatExitCode p.code)] ∧
    drainSetup evs = List.filterMap setupRoute evs := by
  refine ⟨?_, rfl, ?_⟩
  · induction evs with
    | nil => rfl
    | cons e rest ih => cases e <;> simp [drainStart, drainSpecified, ih]
  · induction evs with
    | nil => rfl
    | cons e rest ih => cases e <;> simp [drainSetup, setupRoute, ih]

/-- C4: the drain task never mutates the supervisor state - for every
state and event stream, including a stream holding a Terminated event,
the task returns the state it observes unchanged; consequently after an
observed termination a start call still reports the worker already
running, and only an explicit stop call empties the slot. -/
theorem drain_preserves_supervisor_state (c : CommandChild)
    (p : TerminatedPayload) (evs : List CommandEvent) (env : SpawnOutcome)
    (kenv : KillOutcome) (s : BackendState) :
    (drainTask s evs).1 = s ∧
    (drainTask { child := some c } (CommandEvent.Terminated p :: evs)).1 =
      { child := some c } ∧
    (start_backend env { child := some c }).ret = Except.ok "Backend already running" ∧
    (start_backend env { child := some c }).state = { child := some c } ∧
    (stop_backend kenv { child := some c }).state = { child := none } := by
  refine ⟨rfl, rfl, rfl, rfl, ?_⟩
  cases kenv <;> rfl

/-- C5: when start is called with the slot empty and sidecar resolution
or the OS spawn fails, the call returns the corresponding error string,
the slot remains empty, no drain task is attached, and a subsequent
start whose spawn succeeds returns the started message (the caller may
retry). -/
theorem start_failure_leaves_slot_empty (e : String) (c : CommandChild)
    (evs : List CommandEvent) :
    start_backend (SpawnOutcome.sidecarErr e) { child := none } =
      { ret := Except.error ("Failed to create sidecar command: " ++ e),
        state := { child := none }, drained := none,
        trace := [Action.lock, Action.readSlot false,
          Action.resolveSidecar false, Action.unlock] } ∧
    start_backend (SpawnOutcome.spawnErr e) { child := none } =
      { ret := Except.error ("Failed to spawn backend: " ++ e),
        state := { child := none }, drained := none,
        trace := [Action.lock, Action.readSlot false, Action.resolveSidecar true,
          Action.spawn false, Action.unlock] } ∧
    (start_backend (SpawnOutcome.ok c evs)
        (start_backend (SpawnOutcome.spawnErr e) { child := none }).state).ret =
      Except.ok "Backend started" :=
  ⟨rfl, rfl, rfl⟩

/-- C6: stop on an idle supervisor returns the non-error message that
the backend was not running and leaves the slot empty, whatever the kill
environment would have done; in the scenario start, stop, stop, the
second stop reports the backend was not running. -/
theorem stop_idle_not_running (kenv : KillOutcome) (c : CommandChild)
    (evs : List CommandEvent) :
    stop_backend kenv { child := none } =
      { ret := Except.ok "Backend was not running", state := { child := none },
        trace := [Action.lock, Action.unlock] } ∧
    (stop_backend KillOutcome.ok
        (start_backend (SpawnOutcome.ok c evs) { child := none }).state).ret =
      Except.ok "Backend stopped" ∧
    (stop_backend KillOutcome.ok
        (stop_backend KillOutcome.ok
          (start_backend (SpawnOutcome.ok c evs) { child := none }).state).state).ret =
      Except.ok "Backend was not running" :=
  ⟨rfl, rfl, rfl⟩

/-- C7 counterexample: the spawn call is performed while the mutex guard
is held - in the successful start from the idle state, the spawn action
lies strictly between the lock and unlock actions of the trace - which
refutes the claim that the guard is held only for the brief slot access
and that the spawn call runs without holding the guard. -/
theorem spawn_inside_guarded_region :
    Action.spawn true ∈ guardedActions
      ((start_backend (SpawnOutcome.ok { pid := 0 } []) { child := none }).trace) := by
  decide

/-- C7 (amended): neither start nor stop contains a suspension point (no
await action in their traces), and the guard is held for the entire body
of each call - every trace is the lock action, the guarded actions, then
the unlock action - so the synchronous spawn and kill calls happen
inside the guarded region rather than outside it; the drain task's
receive call suspends, in a detached task that never acquires the
guard. -/
theorem guard_held_across_spawn_and_kill (env : SpawnOutcome)
    (kenv : KillOutcome) (s : BackendState) (c : CommandChild)
    (evs : List CommandEvent) :
    Action.awaitRecv ∉ (start_backend env s).trace ∧
    Action.awaitRecv ∉ (stop_backend kenv s).trace ∧
    (start_backend env s).trace =
      Action.lock :: (guardedActions (start_backend env s).trace ++ [Action.unlock]) ∧
    (stop_backend kenv s).trace =
      Action.lock :: (guardedActions (stop_backend kenv s).trace ++ [Action.unlock]) ∧
    Action.spawn true ∈ guardedActions
      ((start_backend (SpawnOutcome.ok c evs) { child := none }).trace) ∧
    Action.kill c ∈ guardedActions
      ((stop_backend kenv { child := some c }).trace) ∧
    Action.lock ∉ drainTaskTrace evs ∧
    Action.awaitRecv ∈ drainTaskTrace evs := by
  obtain ⟨ch⟩ := s
  refine ⟨?_, ?_, ?_, ?_, ?_, ?_, ?_, ?_⟩
  · cases ch <;> cases env <;> simp [start_backend]
  · cases ch <;> cases kenv <;> simp [stop_backend]
  · cases ch <;> cases env <;> simp [start_backend, guardedActions, upToUnlock]
  · cases ch <;> cases kenv <;> simp [stop_backend, guardedActions, upToUnlock]
  · simp [start_backend, guardedActions, upToUnlock]
  · cases kenv <;> simp [stop_backend, guardedActions, upToUnlock]
  · induction evs with
    | nil => simp [drainTaskTrace]
    | cons e rest ih => cases e <;> simp [drainTaskTrace, ih]
  · cases evs with
    | nil => simp [drainTaskTrace]
    | cons e rest => cases e <;> simp [drainTaskTrace]

/-- C8: get_backend_url is a pure constant - called against any
supervisor state it returns the fixed address, leaves the state
unchanged, and performs no locking (its action trace is empty). -/
theorem get_backend_url_pure_constant (s : BackendState) :
    call_get_backend_url s = ("http://localhost:8000", s, ([] : List Action)) ∧
    Action.lock ∉ (call_get_backend_url s).2.2 :=
  ⟨rfl, by simp [call_get_backend_url]⟩

/-- C9 counterexample: a failed kill in the window-close hook is not
logged - the binding on source line 122 discards the kill result, so on
a kill failure the hook's entire output (state, logs, close behaviour)
is identical to the success case, and its only log line is the
unconditional stopped message, which carries nothing about the failure.
This refutes the claim that a kill failure is logged. -/
theorem close_hook_discards_kill_failure :
    closeRequestedHook (KillOutcome.err "kill failed") { child := some { pid := 0 } } =
      closeRequestedHook KillOutcome.ok { child := some { pid := 0 } } ∧
    (closeRequestedHook (KillOutcome.err "kill failed")
        { child := some { pid := 0 } }).logs =
      [Log.info "Backend stopped on window close"] := by
  decide

/-- C9 (amended): the window-close hook clears an occupied slot - the
handle is taken and a kill is issued whose outcome is silently
discarded, neither logged nor propagated - logs the unconditional
stopped message, and does nothing on an empty slot; its output does not
depend on the kill outcome, and it never prevents the close. -/
theorem close_hook_clears_slot_and_proceeds (kenv kenv2 : KillOutcome)
    (c : CommandChild) (s : BackendState) :
    closeRequestedHook kenv { child := some c } =
      { state := { child := none },
        logs := [Log.info "Backend stopped on window close"],
        preventClose := false,
        trace := [Action.lock, Action.takeChild c, Action.kill c, Action.unlock] } ∧
    closeRequestedHook kenv { child := none } =
      { state := { child := none }, logs := [], preventClose := false,
        trace := [Action.lock, Action.unlock] } ∧
    Action.kill c ∈ (closeRequestedHook kenv { child := some c }).trace ∧
    closeRequestedHook kenv s = closeRequestedHook kenv2 s ∧
    (closeRequestedHook kenv s).preventClose = false := by
  refine ⟨rfl, rfl, by simp [closeRequestedHook], rfl, ?_⟩
  obtain ⟨ch⟩ := s
  cases ch <;> rfl

/-- C10: both drain loops decode stdout and stderr payloads with total
lossy UTF-8 conversion - for every byte list, valid UTF-8 or not, the
event is routed to exactly one log line carrying the decoded text;
well-formed input decodes to its characters and invalid or truncated
sequences become the replacement character, so decoding never fails on
arbitrary byte input. -/
theorem drain_decodes_lossy_total (bs : List Nat) (rest : List CommandEvent) :
    drainStart (CommandEvent.Stdout bs :: rest) =
      Log.info ("[Backend] " ++ fromUtf8Lossy bs) :: drainStart rest ∧
    drainStart (CommandEvent.Stderr bs :: rest) =
      Log.error ("[Backend Error] " ++ fromUtf8Lossy bs) :: drainStart rest ∧
    drainSetup (CommandEvent.Stdout bs :: rest) =
      Log.info ("[Backend] " ++ fromUtf8Lossy bs) :: drainSetup rest ∧
    drainSetup (CommandEvent.Stderr bs :: rest) =
      Log.error ("[Backend Error] " ++ fromUtf8Lossy bs) :: drainSetup rest ∧
    fromUtf8Lossy [104, 101, 106] = "hej" ∧
    fromUtf8Lossy [0xC3, 0xA5, 0xE2, 0x82, 0xAC] = "å€" ∧
    fromUtf8Lossy [255, 65] = "�A" ∧
    fromUtf8Lossy [0xE2, 0x82] = "�" ∧
    fromUtf8Lossy [] = "" :=
  ⟨rfl, rfl, rfl, rfl, by decide, by decide, by decide, by decide, rfl⟩

end Supervision
